import Mathlib

/-!
Verification of the view-state controller of the enhanced_reader PDF viewer.

The repository is a React PDF viewer.  The in-scope logic (per the spec) is the
view state controller of the final variant (src/unnamed/part_001): component
state numPages / pageNumber / scale, the load callback onDocumentLoadSuccess,
the navigation handlers goToPrevPage / goToNextPage / goToPage, the zoom
handlers zoomIn / zoomOut, and the thumbnail-list projection.

Modelling choices:
- JavaScript numbers holding page counts and page numbers are modelled as Int;
  the zoom scale (0.5 .. 3.0 in steps of 0.2) is modelled as an exact rational.
- numPages starts as null: modelled as Option Int, with the JavaScript numeric
  coercion Number(null) = 0 made explicit (jsNumber) where the source applies
  arithmetic to a possibly-null value (Math.min(numPages, ...)).
- JavaScript truthiness of numPages (the conditional renders in the JSX) is
  modelled by jsTruthy: null and 0 are falsy, every other number is truthy.
-/

namespace EnhancedReader

/-- The component state of the viewer (src/unnamed/part_001, Section 3):
    useState(null) for numPages, useState(1) for pageNumber, useState(1.0)
    for scale. -/
structure ViewState where
  numPages : Option Int
  pageNumber : Int
  scale : ℚ
  deriving Repr, DecidableEq

/-- Initial component state: numPages = null, pageNumber = 1, scale = 1.0. -/
def initState : ViewState :=
  { numPages := none, pageNumber := 1, scale := 1 }

/-- JavaScript numeric coercion applied to a possibly-null number:
    Number(null) = 0. -/
def jsNumber : Option Int → Int
  | none => 0
  | some n => n

/-- JavaScript truthiness of a possibly-null number: null and 0 are falsy. -/
def jsTruthy : Option Int → Bool
  | none => false
  | some n => decide (n ≠ 0)

/-- Load callback (src/unnamed/part_001 lines 55-62):
    setNumPages(numPages); if (pageNumber === 1) setPageNumber(1). -/
def onDocumentLoadSuccess (pageCount : Int) (s : ViewState) : ViewState :=
  { s with
    numPages := some pageCount
    pageNumber := if s.pageNumber = 1 then 1 else s.pageNumber }

/-- goToPrevPage (lines 67-69): setPageNumber(prev => Math.max(1, prev - 1)). -/
def goToPrevPage (s : ViewState) : ViewState :=
  { s with pageNumber := max 1 (s.pageNumber - 1) }

/-- goToNextPage (lines 74-76):
    setPageNumber(prev => Math.min(numPages, prev + 1)); numPages may still be
    null, in which case JavaScript coerces it to 0 inside Math.min. -/
def goToNextPage (s : ViewState) : ViewState :=
  { s with pageNumber := min (jsNumber s.numPages) (s.pageNumber + 1) }

/-- goToPage (lines 79-81): setPageNumber(page), no validation. -/
def goToPage (page : Int) (s : ViewState) : ViewState :=
  { s with pageNumber := page }

/-- zoomIn (lines 84-86): setScale(prev => Math.min(prev + 0.2, 3.0)). -/
def zoomIn (s : ViewState) : ViewState :=
  { s with scale := min (s.scale + 0.2) 3.0 }

/-- zoomOut (lines 89-91): setScale(prev => Math.max(prev - 0.2, 0.5)). -/
def zoomOut (s : ViewState) : ViewState :=
  { s with scale := max (s.scale - 0.2) 0.5 }

/-- Thumbnail projection (lines 127-151):
    Array.from(new Array(numPages), (el, index) => ...) with
    page = index + 1 and isActive = (page === pageNumber), rendered in
    index order. -/
def thumbnailItems (numPages : Int) (pageNumber : Int) : List (Int × Bool) :=
  (List.range numPages.toNat).map
    (fun (index : Nat) => ((index : Int) + 1, decide ((index : Int) + 1 = pageNumber)))

/-- The spec-side formulation of the thumbnail projection, for refinement:
    the ordered sequence of pairs (p, p == currentPage) for p from 1 to
    totalPages in ascending page order. -/
def thumbnailSpec (totalPages : Int) (currentPage : Int) : List (Int × Bool) :=
  (List.range' 1 totalPages.toNat).map
    (fun (p : Nat) => ((p : Int), decide ((p : Int) = currentPage)))

/-- The page-controls block (lines 186-204) is rendered only when numPages is
    truthy; the Previous / Next buttons exist only inside it. -/
def pageControlsRendered (s : ViewState) : Bool :=
  jsTruthy s.numPages

/-- The thumbnail sidebar Document (lines 118-153) is likewise rendered only
    when numPages is truthy; goToPage is reachable only through its items. -/
def thumbnailsRendered (s : ViewState) : Bool :=
  jsTruthy s.numPages

/-- The discrete events the component reacts to: a document-load completion
    and the five user-initiated handlers. -/
inductive Event where
  | load (pageCount : Int)
  | prev
  | next
  | goto (page : Int)
  | zin
  | zout
  deriving Repr, DecidableEq

/-- State transition for one event. -/
def step : Event → ViewState → ViewState
  | Event.load pc => onDocumentLoadSuccess pc
  | Event.prev => goToPrevPage
  | Event.next => goToNextPage
  | Event.goto p => goToPage p
  | Event.zin => zoomIn
  | Event.zout => zoomOut

/-- Which events can fire in a given state: load callbacks and the
    (always-rendered) zoom buttons at any time; Previous / Next and the
    thumbnail clicks only when their enclosing block is rendered, i.e. when
    numPages is truthy. -/
def enabled : Event → ViewState → Prop
  | Event.load _, _ => True
  | Event.prev, s => pageControlsRendered s = true
  | Event.next, s => pageControlsRendered s = true
  | Event.goto _, s => thumbnailsRendered s = true
  | Event.zin, _ => True
  | Event.zout, _ => True

/-- States reachable from the initial state by firing enabled events. -/
inductive Reachable : ViewState → Prop
  | init : Reachable initState
  | step {s : ViewState} (e : Event) :
      Reachable s → enabled e s → Reachable (step e s)

/-- Navigation operations, for sequences of navigation calls. -/
inductive NavOp where
  | prev
  | next
  | goto (page : Int)
  deriving Repr, DecidableEq

/-- Apply one navigation operation. -/
def applyNav : NavOp → ViewState → ViewState
  | NavOp.prev => goToPrevPage
  | NavOp.next => goToNextPage
  | NavOp.goto p => goToPage p

/-- Run a sequence of navigation operations, left to right. -/
def runNav (ops : List NavOp) (s : ViewState) : ViewState :=
  ops.foldl (fun t op => applyNav op t) s

/-- The documented caller contract of goToPage: the supplied page is already
    in range. -/
def navValid (totalPages : Int) : NavOp → Prop
  | NavOp.goto p => 1 ≤ p ∧ p ≤ totalPages
  | _ => True

/-- Zoom operations, for sequences of zoom calls. -/
inductive ZoomOp where
  | zin
  | zout
  deriving Repr, DecidableEq

/-- Apply one zoom operation. -/
def applyZoom : ZoomOp → ViewState → ViewState
  | ZoomOp.zin => zoomIn
  | ZoomOp.zout => zoomOut

/-- Run a sequence of zoom operations, left to right. -/
def runZoom (ops : List ZoomOp) (s : ViewState) : ViewState :=
  ops.foldl (fun t op => applyZoom op t) s

/-! Frame lemmas shared by several proofs: each handler touches one field. -/

theorem applyNav_numPages (op : NavOp) (s : ViewState) :
    (applyNav op s).numPages = s.numPages := by
  cases op <;> rfl

theorem applyNav_scale (op : NavOp) (s : ViewState) :
    (applyNav op s).scale = s.scale := by
  cases op <;> rfl

theorem applyZoom_pageNumber (op : ZoomOp) (s : ViewState) :
    (applyZoom op s).pageNumber = s.pageNumber := by
  cases op <;> rfl

theorem applyZoom_numPages (op : ZoomOp) (s : ViewState) :
    (applyZoom op s).numPages = s.numPages := by
  cases op <;> rfl

theorem goToNextPage_numPages (s : ViewState) :
    (goToNextPage s).numPages = s.numPages := rfl

theorem goToPrevPage_numPages (s : ViewState) :
    (goToPrevPage s).numPages = s.numPages := rfl

/-- In every reachable state that has not yet observed a load event,
    the page number is still its initial value 1: every handler that could
    move it away is rendered only once numPages is truthy, hence non-null. -/
theorem reachable_unloaded_page_one {s : ViewState} (h : Reachable s) :
    s.numPages = none → s.pageNumber = 1 := by
  induction h with
  | init => intro _; rfl
  | @step s e _ he ih =>
    cases e with
    | load pc => intro hnone; simp [step, onDocumentLoadSuccess] at hnone
    | prev =>
        intro hnone
        rw [show (step Event.prev s).numPages = s.numPages from rfl] at hnone
        simp [enabled, pageControlsRendered, hnone, jsTruthy] at he
    | next =>
        intro hnone
        rw [show (step Event.next s).numPages = s.numPages from rfl] at hnone
        simp [enabled, pageControlsRendered, hnone, jsTruthy] at he
    | goto p =>
        intro hnone
        rw [show (step (Event.goto p) s).numPages = s.numPages from rfl] at hnone
        simp [enabled, thumbnailsRendered, hnone, jsTruthy] at he
    | zin =>
        intro hnone
        exact ih hnone
    | zout =>
        intro hnone
        exact ih hnone

/-- C1: onDocumentLoaded(pageCount) sets totalPages to pageCount on every
    call; it never moves currentPage away from its current value, so in
    particular a first load (numPages still null in a reachable state) leaves
    currentPage = 1, and a second onDocumentLoaded(5) arriving while
    currentPage = 3 keeps currentPage = 3 rather than resetting it to 1. -/
theorem claim_C1_onDocumentLoaded_first_load_only (s : ViewState) (pc : Int)
    (hr : Reachable s) :
    (step (Event.load pc) s).numPages = some pc ∧
    (step (Event.load pc) s).pageNumber = s.pageNumber ∧
    (s.numPages = none → (step (Event.load pc) s).pageNumber = 1) ∧
    (step (Event.load 5)
        { numPages := some 5, pageNumber := 3, scale := 1 }).pageNumber = 3 := by
  refine ⟨rfl, ?_, ?_, by decide⟩
  · show (if s.pageNumber = 1 then 1 else s.pageNumber) = s.pageNumber
    split
    · omega
    · rfl
  · intro hnone
    have h1 : s.pageNumber = 1 := reachable_unloaded_page_one hr hnone
    show (if s.pageNumber = 1 then 1 else s.pageNumber) = 1
    simp [h1]

/-- Witness for C1 at the initial state and pageCount 5. -/
theorem claim_C1_witness :
    (step (Event.load 5) initState).numPages = some 5 ∧
    (step (Event.load 5) initState).pageNumber = initState.pageNumber ∧
    (initState.numPages = none → (step (Event.load 5) initState).pageNumber = 1) ∧
    (step (Event.load 5)
        { numPages := some 5, pageNumber := 3, scale := 1 }).pageNumber = 3 :=
  claim_C1_onDocumentLoaded_first_load_only initState 5 Reachable.init

/-- C7: goToPage(p) sets currentPage to exactly p for every input p, with no
    range validation or clamping: the result is p even for inputs outside
    [1, totalPages], as the two out-of-range instances show. -/
theorem claim_C7_goToPage_no_validation (p : Int) (s : ViewState) :
    (goToPage p s).pageNumber = p ∧
    (goToPage 100 { numPages := some 5, pageNumber := 1, scale := 1 }).pageNumber = 100 ∧
    (goToPage 0 { numPages := some 5, pageNumber := 1, scale := 1 }).pageNumber = 0 ∧
    (goToPage (-7) { numPages := some 5, pageNumber := 1, scale := 1 }).pageNumber = -7 :=
  ⟨rfl, rfl, rfl, rfl⟩

/-- C9: each operation mutates only its own field: the navigation handlers
    leave zoomScale and totalPages unchanged, the zoom handlers leave
    currentPage and totalPages unchanged, and over the whole event alphabet
    of the component only zoomIn/zoomOut move the scale and only the
    navigation handlers and the load callback can touch the page number. -/
theorem claim_C9_frame_conditions (s : ViewState) (p pc : Int) :
    ((goToPrevPage s).scale = s.scale ∧ (goToPrevPage s).numPages = s.numPages) ∧
    ((goToNextPage s).scale = s.scale ∧ (goToNextPage s).numPages = s.numPages) ∧
    ((goToPage p s).scale = s.scale ∧ (goToPage p s).numPages = s.numPages) ∧
    ((zoomIn s).pageNumber = s.pageNumber ∧ (zoomIn s).numPages = s.numPages) ∧
    ((zoomOut s).pageNumber = s.pageNumber ∧ (zoomOut s).numPages = s.numPages) ∧
    ((onDocumentLoadSuccess pc s).scale = s.scale) ∧
    (∀ e : Event, e ≠ Event.zin → e ≠ Event.zout → (step e s).scale = s.scale) ∧
    (∀ e : Event, e ≠ Event.prev → e ≠ Event.next → (∀ q : Int, e ≠ Event.goto q) →
      (∀ q : Int, e ≠ Event.load q) → (step e s).pageNumber = s.pageNumber) := by
  refine ⟨⟨rfl, rfl⟩, ⟨rfl, rfl⟩, ⟨rfl, rfl⟩, ⟨rfl, rfl⟩, ⟨rfl, rfl⟩, rfl, ?_, ?_⟩
  · intro e h1 h2
    cases e <;> simp_all [step, onDocumentLoadSuccess, goToPrevPage, goToNextPage,
      goToPage, zoomIn, zoomOut]
  · intro e h1 h2 h3 h4
    cases e with
    | load q => exact absurd rfl (h4 q)
    | goto q => exact absurd rfl (h3 q)
    | prev => exact absurd rfl h1
    | next => exact absurd rfl h2
    | zin => rfl
    | zout => rfl

/-- C10: calling goToNextPage while numPages is still null yields
    currentPage = 0 for every starting page k at least 1 (JavaScript coerces
    null to 0 inside Math.min), leaving the valid range; and in such a state
    the page-controls block holding the Next button is not rendered. -/
theorem claim_C10_next_while_unloaded (s : ViewState)
    (h0 : s.numPages = none) (hk : 1 ≤ s.pageNumber) :
    (goToNextPage s).pageNumber = 0 ∧
    ¬ 1 ≤ (goToNextPage s).pageNumber ∧
    pageControlsRendered s = false := by
  refine ⟨?_, ?_, ?_⟩
  · show min (jsNumber s.numPages) (s.pageNumber + 1) = 0
    rw [h0]
    show min 0 (s.pageNumber + 1) = 0
    omega
  · show ¬ 1 ≤ min (jsNumber s.numPages) (s.pageNumber + 1)
    rw [h0]
    show ¬ 1 ≤ min 0 (s.pageNumber + 1)
    omega
  · rw [pageControlsRendered, h0]
    rfl

/-- Witness for C10 at the initial state (numPages null, page 1). -/
theorem claim_C10_witness :
    (goToNextPage initState).pageNumber = 0 ∧
    ¬ 1 ≤ (goToNextPage initState).pageNumber ∧
    pageControlsRendered initState = false :=
  claim_C10_next_while_unloaded initState rfl (by norm_num [initState])

/-- One navigation step preserves the page-range invariant, given the
    documented caller contract for goToPage. -/
theorem applyNav_bounds {T : Int} {s : ViewState} (op : NavOp)
    (hT : s.numPages = some T) (hlo : 1 ≤ s.pageNumber) (hhi : s.pageNumber ≤ T)
    (hv : navValid T op) :
    1 ≤ (applyNav op s).pageNumber ∧ (applyNav op s).pageNumber ≤ T := by
  cases op with
  | prev =>
      show 1 ≤ max 1 (s.pageNumber - 1) ∧ max 1 (s.pageNumber - 1) ≤ T
      omega
  | next =>
      show 1 ≤ min (jsNumber s.numPages) (s.pageNumber + 1) ∧
        min (jsNumber s.numPages) (s.pageNumber + 1) ≤ T
      rw [hT]
      show 1 ≤ min T (s.pageNumber + 1) ∧ min T (s.pageNumber + 1) ≤ T
      omega
  | goto p => exact hv

/-- C2: once totalPages is set to T and currentPage lies in [1, T], every
    sequence of navigation operations (goToPrevPage, goToNextPage, and
    goToPage under its documented precondition that the supplied page is
    already in [1, T]) keeps currentPage within [1, T]. -/
theorem claim_C2_nav_range_invariant (T : Int) (ops : List NavOp) (s : ViewState)
    (hT : s.numPages = some T) (hlo : 1 ≤ s.pageNumber) (hhi : s.pageNumber ≤ T)
    (hv : ∀ op ∈ ops, navValid T op) :
    1 ≤ (runNav ops s).pageNumber ∧ (runNav ops s).pageNumber ≤ T := by
  induction ops generalizing s with
  | nil => exact ⟨hlo, hhi⟩
  | cons op rest ih =>
      have hv1 : navValid T op := hv op (List.mem_cons_self op rest)
      have hstep := applyNav_bounds op hT hlo hhi hv1
      have hT2 : (applyNav op s).numPages = some T := by
        rw [applyNav_numPages, hT]
      exact ih (applyNav op s) hT2 hstep.1 hstep.2
        (fun o ho => hv o (List.mem_cons_of_mem op ho))

/-- Witness for C2: five pages, start at page 3, run next, goto 5, prev, prev. -/
theorem claim_C2_witness :
    1 ≤ (runNav [NavOp.next, NavOp.goto 5, NavOp.prev, NavOp.prev]
          { numPages := some 5, pageNumber := 3, scale := 1 }).pageNumber ∧
    (runNav [NavOp.next, NavOp.goto 5, NavOp.prev, NavOp.prev]
          { numPages := some 5, pageNumber := 3, scale := 1 }).pageNumber ≤ 5 :=
  claim_C2_nav_range_invariant 5 [NavOp.next, NavOp.goto 5, NavOp.prev, NavOp.prev]
    { numPages := some 5, pageNumber := 3, scale := 1 } rfl (by norm_num) (by norm_num)
    (by
      intro op hop
      rcases List.mem_cons.mp hop with rfl | hop
      · trivial
      rcases List.mem_cons.mp hop with rfl | hop
      · exact ⟨by norm_num, by norm_num⟩
      rcases List.mem_cons.mp hop with rfl | hop
      · trivial
      rcases List.mem_cons.mp hop with rfl | hop
      · trivial
      · cases hop)

/-- One zoom step preserves the scale-range invariant. -/
theorem applyZoom_bounds {s : ViewState} (op : ZoomOp)
    (hlo : (0.5 : ℚ) ≤ s.scale) (hhi : s.scale ≤ 3.0) :
    (0.5 : ℚ) ≤ (applyZoom op s).scale ∧ (applyZoom op s).scale ≤ 3.0 := by
  cases op with
  | zin =>
      show (0.5 : ℚ) ≤ min (s.scale + 0.2) 3.0 ∧ min (s.scale + 0.2) 3.0 ≤ 3.0
      constructor
      · apply le_min (by linarith) (by norm_num)
      · exact min_le_right _ _
  | zout =>
      show (0.5 : ℚ) ≤ max (s.scale - 0.2) 0.5 ∧ max (s.scale - 0.2) 0.5 ≤ 3.0
      constructor
      · exact le_max_right _ _
      · apply max_le (by linarith) (by norm_num)

/-- C3: starting from any zoomScale in [0.5, 3.0], every sequence of zoomIn
    and zoomOut calls keeps zoomScale within the inclusive bounds 0.5 and
    3.0. -/
theorem claim_C3_zoom_range_invariant (ops : List ZoomOp) (s : ViewState)
    (hlo : (0.5 : ℚ) ≤ s.scale) (hhi : s.scale ≤ 3.0) :
    (0.5 : ℚ) ≤ (runZoom ops s).scale ∧ (runZoom ops s).scale ≤ 3.0 := by
  induction ops generalizing s with
  | nil => exact ⟨hlo, hhi⟩
  | cons op rest ih =>
      have hstep := applyZoom_bounds op hlo hhi
      exact ih (applyZoom op s) hstep.1 hstep.2

/-- Witness for C3: start at scale 1.0, zoom in twice then out three times. -/
theorem claim_C3_witness :
    (0.5 : ℚ) ≤ (runZoom [ZoomOp.zin, ZoomOp.zin, ZoomOp.zout, ZoomOp.zout, ZoomOp.zout]
        initState).scale ∧
    (runZoom [ZoomOp.zin, ZoomOp.zin, ZoomOp.zout, ZoomOp.zout, ZoomOp.zout]
        initState).scale ≤ 3.0 :=
  claim_C3_zoom_range_invariant
    [ZoomOp.zin, ZoomOp.zin, ZoomOp.zout, ZoomOp.zout, ZoomOp.zout]
    initState (by norm_num [initState]) (by norm_num [initState])

/-- C4: from any valid scale, zoomIn then zoomOut (and symmetrically zoomOut
    then zoomIn) returns the scale to its original value whenever the first
    operation was not clamped at a boundary; the exception is real: from 3.0,
    zoomIn is a no-op and the subsequent zoomOut yields 2.8, not 3.0. -/
theorem claim_C4_zoom_roundtrip (s : ViewState)
    (hlo : (0.5 : ℚ) ≤ s.scale) (hhi : s.scale ≤ 3.0) :
    (s.scale + 0.2 ≤ 3.0 → (zoomOut (zoomIn s)).scale = s.scale) ∧
    (0.5 ≤ s.scale - 0.2 → (zoomIn (zoomOut s)).scale = s.scale) ∧
    (zoomOut (zoomIn { numPages := none, pageNumber := 1, scale := 3.0 })).scale
      = 2.8 := by
  refine ⟨?_, ?_, ?_⟩
  · intro h
    show max (min (s.scale + 0.2) 3.0 - 0.2) 0.5 = s.scale
    rw [min_eq_left h]
    have : s.scale + 0.2 - 0.2 = s.scale := by ring
    rw [this, max_eq_left hlo]
  · intro h
    show min (max (s.scale - 0.2) 0.5 + 0.2) 3.0 = s.scale
    rw [max_eq_left h]
    have : s.scale - 0.2 + 0.2 = s.scale := by ring
    rw [this, min_eq_left hhi]
  · show max (min ((3.0 : ℚ) + 0.2) 3.0 - 0.2) 0.5 = 2.8
    norm_num

/-- Witness for C4 at scale 1.0 (neither direction clamped). -/
theorem claim_C4_witness :
    ((initState.scale + 0.2 ≤ 3.0 → (zoomOut (zoomIn initState)).scale = initState.scale) ∧
     (0.5 ≤ initState.scale - 0.2 → (zoomIn (zoomOut initState)).scale = initState.scale) ∧
     (zoomOut (zoomIn { numPages := none, pageNumber := 1, scale := 3.0 })).scale = 2.8) ∧
    (zoomOut (zoomIn initState)).scale = initState.scale ∧
    (zoomIn (zoomOut initState)).scale = initState.scale := by
  have h := claim_C4_zoom_roundtrip initState (by norm_num [initState])
    (by norm_num [initState])
  exact ⟨h, h.1 (by norm_num [initState]), h.2.1 (by norm_num [initState])⟩

/-- Closed form for at least one iteration of goToNextPage under a known
    page count. -/
theorem goToNextPage_iterate (T : Int) :
    ∀ (n : Nat) (s : ViewState), s.numPages = some T →
      (goToNextPage^[n + 1] s).pageNumber = min T (s.pageNumber + (n + 1)) := by
  intro n
  induction n with
  | zero =>
      intro s hT
      rw [Function.iterate_one]
      show min (jsNumber s.numPages) (s.pageNumber + 1) = min T (s.pageNumber + (0 + 1))
      rw [hT]
      show min T (s.pageNumber + 1) = min T (s.pageNumber + (0 + 1))
      norm_num
  | succ n ih =>
      intro s hT
      rw [Function.iterate_succ_apply]
      rw [ih (goToNextPage s) (by rw [goToNextPage_numPages, hT])]
      show min T (min (jsNumber s.numPages) (s.pageNumber + 1) + (n + 1))
        = min T (s.pageNumber + (n + 1 + 1))
      rw [hT]
      show min T (min T (s.pageNumber + 1) + (n + 1))
        = min T (s.pageNumber + (n + 1 + 1))
      omega

/-- C5: with totalPages = T known, n applications of goToNextPage from
    currentPage = 1 yield currentPage = min(T, 1 + n) for every n at least 1;
    each single call computes min(totalPages, currentPage + 1) and is a no-op
    at the last page. -/
theorem claim_C5_next_iterated (T : Int) (n : Nat) (s : ViewState)
    (hT : s.numPages = some T) (hp : s.pageNumber = 1) (hn : 1 ≤ n) :
    (goToNextPage^[n] s).pageNumber = min T (1 + n) ∧
    (∀ t : ViewState, t.numPages = some T →
      (goToNextPage t).pageNumber = min T (t.pageNumber + 1)) ∧
    (∀ t : ViewState, t.numPages = some T → t.pageNumber = T →
      (goToNextPage t).pageNumber = t.pageNumber) := by
  refine ⟨?_, ?_, ?_⟩
  · obtain ⟨m, rfl⟩ : ∃ m, n = m + 1 := ⟨n - 1, by omega⟩
    rw [goToNextPage_iterate T m s hT, hp]
    push_cast
    omega
  · intro t ht
    show min (jsNumber t.numPages) (t.pageNumber + 1) = min T (t.pageNumber + 1)
    rw [ht]
    rfl
  · intro t ht htop
    show min (jsNumber t.numPages) (t.pageNumber + 1) = t.pageNumber
    rw [ht, htop]
    show min T (T + 1) = T
    omega

/-- Witness for C5: T = 3, four next calls from page 1 land on page 3. -/
theorem claim_C5_witness :
    (goToNextPage^[4] { numPages := some 3, pageNumber := 1, scale := 1 }).pageNumber
      = min 3 (1 + (4 : Nat)) ∧
    (∀ t : ViewState, t.numPages = some 3 →
      (goToNextPage t).pageNumber = min 3 (t.pageNumber + 1)) ∧
    (∀ t : ViewState, t.numPages = some 3 → t.pageNumber = 3 →
      (goToNextPage t).pageNumber = t.pageNumber) :=
  claim_C5_next_iterated 3 4 { numPages := some 3, pageNumber := 1, scale := 1 }
    rfl rfl (by norm_num)

/-- Closed form for at least one iteration of goToPrevPage. -/
theorem goToPrevPage_iterate :
    ∀ (n : Nat) (s : ViewState),
      (goToPrevPage^[n + 1] s).pageNumber = max 1 (s.pageNumber - (n + 1)) := by
  intro n
  induction n with
  | zero =>
      intro s
      rw [Function.iterate_one]
      show max 1 (s.pageNumber - 1) = max 1 (s.pageNumber - (0 + 1))
      norm_num
  | succ n ih =>
      intro s
      rw [Function.iterate_succ_apply, ih (goToPrevPage s)]
      show max 1 (max 1 (s.pageNumber - 1) - (n + 1)) = max 1 (s.pageNumber - (n + 1 + 1))
      omega

/-- C6: for every n at least 1 and starting currentPage = k at least 1,
    n applications of goToPrevPage yield currentPage = max(1, k - n); each
    single call computes max(1, currentPage - 1) and is an idempotent no-op
    at currentPage = 1. -/
theorem claim_C6_prev_iterated (n : Nat) (s : ViewState)
    (hk : 1 ≤ s.pageNumber) (hn : 1 ≤ n) :
    (goToPrevPage^[n] s).pageNumber = max 1 (s.pageNumber - n) ∧
    (∀ t : ViewState, (goToPrevPage t).pageNumber = max 1 (t.pageNumber - 1)) ∧
    (∀ t : ViewState, t.pageNumber = 1 → (goToPrevPage t).pageNumber = 1) ∧
    (∀ t : ViewState, t.pageNumber = 1 →
      (goToPrevPage (goToPrevPage t)).pageNumber = (goToPrevPage t).pageNumber) := by
  refine ⟨?_, fun t => rfl, ?_, ?_⟩
  · obtain ⟨m, rfl⟩ : ∃ m, n = m + 1 := ⟨n - 1, by omega⟩
    exact goToPrevPage_iterate m s
  · intro t ht
    show max 1 (t.pageNumber - 1) = 1
    omega
  · intro t ht
    show max 1 (max 1 (t.pageNumber - 1) - 1) = max 1 (t.pageNumber - 1)
    omega

/-- Witness for C6: five prev calls from page 3 stop at page 1. -/
theorem claim_C6_witness :
    (goToPrevPage^[5] { numPages := some 9, pageNumber := 3, scale := 1 }).pageNumber
      = max 1 (3 - (5 : Nat)) ∧
    (∀ t : ViewState, (goToPrevPage t).pageNumber = max 1 (t.pageNumber - 1)) ∧
    (∀ t : ViewState, t.pageNumber = 1 → (goToPrevPage t).pageNumber = 1) ∧
    (∀ t : ViewState, t.pageNumber = 1 →
      (goToPrevPage (goToPrevPage t)).pageNumber = (goToPrevPage t).pageNumber) :=
  claim_C6_prev_iterated 5 { numPages := some 9, pageNumber := 3, scale := 1 }
    (by norm_num) (by norm_num)

/-- C8: the thumbnail projection from the source (Array.from over indices
    0 .. numPages-1, page = index + 1, isActive = (page === pageNumber))
    yields exactly the ordered sequence of pairs (p, p == currentPage) for p
    from 1 to totalPages ascending; and at totalPages = 3, currentPage = 2 it
    is [(1,false), (2,true), (3,false)]. -/
theorem claim_C8_thumbnail_projection (total cur : Int) :
    thumbnailItems total cur = thumbnailSpec total cur ∧
    thumbnailItems 3 2 = [(1, false), (2, true), (3, false)] := by
  constructor
  · have h : thumbnailSpec total cur = thumbnailItems total cur := by
      rw [thumbnailSpec, thumbnailItems, List.range'_eq_map_range, List.map_map]
      apply List.map_congr_left
      intro a _
      simp only [Function.comp_apply]
      have hcast : ((1 + a : ℕ) : ℤ) = (a : ℤ) + 1 := by push_cast; ring
      rw [hcast]
    exact h.symm
  · decide

end EnhancedReader
